import Mathlib

/-
Verification of the todo-list tool module (amplifier_module_tool_todo).

The module holds a session-scoped ordered list of todo records and exposes
one entry point, `execute`, dispatching on an `action` field:
  create / update : validate every submitted item, then replace the store
  list            : report the current store contents
  anything else   : structured failure naming the valid actions.

The embedding below translates `TodoTool.execute` and `mount` from
src/amplifier_module_tool_todo/__init__.py.  A submitted todo record is
modelled by three optional fields (the validation only inspects the
presence of the keys content / status / activeForm and the status value);
the session store is `Option (List RawTodo)`: `none` models a coordinator
object that never had the todo_state attribute attached (the `list`
action reads it through `getattr(..., "todo_state", [])`), and `mount`
initializes it to the empty list.
-/

namespace TodoToolSpec

/-- A todo record as submitted by the caller: each of the three fields the
tool inspects may be present or absent (a Python dict key). -/
structure RawTodo where
  content : Option String
  status : Option String
  activeForm : Option String
deriving DecidableEq, Repr

/-- The tool input record: `action` is `input.get("action")` and `todos`
is the optional `todos` key (`input.get("todos", [])` supplies `[]`). -/
structure Input where
  action : Option String
  todos : Option (List RawTodo)
deriving DecidableEq, Repr

/-- The error payload: a record with a `message` field. -/
structure ErrorObj where
  message : String
deriving DecidableEq, Repr

/-- The success payload, whose shape depends on the action taken. -/
inductive Output where
  | created (count : Nat) (todos : List RawTodo)
  | updated (count pending in_progress completed : Nat)
  | listed (count : Nat) (todos : List RawTodo)
deriving DecidableEq, Repr

/-- The result envelope: success flag plus optional output / error. -/
structure ToolResult where
  success : Bool
  output : Option Output
  error : Option ErrorObj
deriving DecidableEq, Repr

/-- The session store.  `none` models a coordinator without the
`todo_state` attribute; `some l` models `coordinator.todo_state = l`. -/
abbrev Store := Option (List RawTodo)

/-- `mount` initializes `coordinator.todo_state` to the empty list. -/
def mount : Store := some []

/-- The value read as `todo["status"]` (only consulted after the
presence check has passed, so the default is never observed there). -/
def statusVal (t : RawTodo) : String := t.status.getD ""

/-- `all(k in todo for k in ["content", "status", "activeForm"])`. -/
def hasFields (t : RawTodo) : Bool :=
  t.content.isSome && t.status.isSome && t.activeForm.isSome

/-- The three allowed status values. -/
def allowedStatuses : List String := ["pending", "in_progress", "completed"]

/-- `todo["status"] in ["pending", "in_progress", "completed"]`. -/
def statusOk (t : RawTodo) : Bool := allowedStatuses.contains (statusVal t)

/-- An item that passes both validation checks. -/
def validTodo (t : RawTodo) : Bool := hasFields t && statusOk t

/-- The missing-fields failure message for item index `i`. -/
def missingMsg (i : Nat) : String :=
  "Todo " ++ toString i ++ " missing required fields (content, status, activeForm)"

/-- The invalid-status failure message for item index `i` and value `v`. -/
def invalidMsg (i : Nat) (v : String) : String :=
  "Todo " ++ toString i ++ " has invalid status: " ++ v

/-- The unknown-action failure message. -/
def unknownMsg (a : String) : String :=
  "Unknown action: " ++ a ++ ". Valid actions: create, update, list"

/-- The validation loop `for i, todo in enumerate(todos)` of create/update,
started at index `i`: the first offending item determines the message. -/
def validateFrom : Nat → List RawTodo → Option String
  | _, [] => none
  | i, t :: rest =>
    if hasFields t then
      if statusOk t then validateFrom (i + 1) rest
      else some (invalidMsg i (statusVal t))
    else some (missingMsg i)

/-- `sum(1 for t in todos if t["status"] == s)`. -/
def countStatus (s : String) (todos : List RawTodo) : Nat :=
  (todos.filter (fun t => statusVal t == s)).length

/-- How Python renders the action inside the unknown-action f-string:
a missing key read by `.get` is `None`. -/
def optionStr : Option String → String
  | none => "None"
  | some s => s

/-- `TodoTool.execute`: dispatch on the action, validate-then-replace for
create/update, read-only for list, structured failure otherwise.  Returns
the result envelope together with the store after the call. -/
def execute (input : Input) (st : Store) : ToolResult × Store :=
  if input.action = some "create" then
    let todos := input.todos.getD []
    match validateFrom 0 todos with
    | some msg => (⟨false, none, some ⟨msg⟩⟩, st)
    | none => (⟨true, some (.created todos.length todos), none⟩, some todos)
  else if input.action = some "update" then
    let todos := input.todos.getD []
    match validateFrom 0 todos with
    | some msg => (⟨false, none, some ⟨msg⟩⟩, st)
    | none =>
      (⟨true, some (.updated todos.length (countStatus "pending" todos)
        (countStatus "in_progress" todos) (countStatus "completed" todos)), none⟩,
       some todos)
  else if input.action = some "list" then
    let cur := st.getD []
    (⟨true, some (.listed cur.length cur), none⟩, st)
  else
    (⟨false, none, some ⟨unknownMsg (optionStr input.action)⟩⟩, st)

/-- The validation loop accepts the list iff every item is valid. -/
theorem validateFrom_eq_none_iff (k : Nat) (todos : List RawTodo) :
    validateFrom k todos = none ↔ ∀ t ∈ todos, validTodo t = true := by
  induction todos generalizing k with
  | nil => simp [validateFrom]
  | cons t rest ih =>
    by_cases h1 : hasFields t
    · by_cases h2 : statusOk t
      · simp [validateFrom, h1, h2, ih, validTodo]
      · simp [validateFrom, h1, h2, validTodo]
    · simp [validateFrom, h1, validTodo]

/-- The validation loop reports the first offending item: with all of `pre`
valid and `bad` invalid, the message is determined by `bad` and its index. -/
theorem validateFrom_first_bad (pre : List RawTodo)
    (hpre : ∀ t ∈ pre, validTodo t = true) (bad : RawTodo)
    (hbad : validTodo bad = false) (suf : List RawTodo) (k : Nat) :
    validateFrom k (pre ++ bad :: suf) =
      some (if hasFields bad then invalidMsg (k + pre.length) (statusVal bad)
            else missingMsg (k + pre.length)) := by
  induction pre generalizing k with
  | nil =>
    by_cases h1 : hasFields bad
    · have h2 : statusOk bad = false := by
        simpa [validTodo, h1] using hbad
      simp [validateFrom, h1, h2]
    · simp [validateFrom, h1]
  | cons t ps ih =>
    have ht : validTodo t = true := hpre t (by simp)
    have h1 : hasFields t = true := by
      simpa [validTodo, Bool.and_eq_true] using And.left (by simpa [validTodo, Bool.and_eq_true] using ht)
    have h2 : statusOk t = true := by
      simpa [validTodo, Bool.and_eq_true] using And.right (by simpa [validTodo, Bool.and_eq_true] using ht)
    have hps : ∀ x ∈ ps, validTodo x = true := fun x hx => hpre x (by simp [hx])
    have hrec := ih hps (k + 1)
    have harith : k + 1 + ps.length = k + (ps.length + 1) := by omega
    rw [harith] at hrec
    simpa only [List.cons_append, validateFrom, h1, h2, if_true, List.length_cons] using hrec

/-- `countStatus` on a cons counts its head when the status matches. -/
theorem countStatus_cons (s : String) (t : RawTodo) (rest : List RawTodo) :
    countStatus s (t :: rest) =
      (if statusVal t == s then 1 else 0) + countStatus s rest := by
  by_cases h : statusVal t == s
  · simp [countStatus, List.filter_cons, h, Nat.add_comm]
  · simp [countStatus, List.filter_cons, h]

/-- For a list of valid items the three per-status tallies sum to the length. -/
theorem countStatus_sum (todos : List RawTodo)
    (h : ∀ t ∈ todos, validTodo t = true) :
    countStatus "pending" todos + countStatus "in_progress" todos +
      countStatus "completed" todos = todos.length := by
  induction todos with
  | nil => simp [countStatus]
  | cons t rest ih =>
    have ht : validTodo t = true := h t (by simp)
    have hok : statusOk t = true := by
      simpa [validTodo, Bool.and_eq_true] using And.right (by simpa [validTodo, Bool.and_eq_true] using ht)
    have hmem : statusVal t = "pending" ∨ statusVal t = "in_progress" ∨
        statusVal t = "completed" := by
      simpa [statusOk, allowedStatuses] using hok
    have hrest : ∀ x ∈ rest, validTodo x = true := fun x hx => h x (by simp [hx])
    have hr := ih hrest
    rcases hmem with hm | hm | hm <;>
      simp [countStatus_cons, hm, List.length_cons] <;> omega

/-- Claim C1: a create or update call whose todos sequence contains at
least one invalid item (missing one of content/status/activeForm, or a
status outside the three allowed values) returns a failure result and
leaves the store contents exactly as they were — validation is fully
performed before any replacement. -/
theorem claim_c1 (a : String) (ha : a = "create" ∨ a = "update")
    (todos : List RawTodo) (hbad : ∃ t ∈ todos, validTodo t = false)
    (st : Store) :
    (execute ⟨some a, some todos⟩ st).1.success = false ∧
    (execute ⟨some a, some todos⟩ st).2 = st := by
  have hv : validateFrom 0 todos ≠ none := by
    rw [Ne, validateFrom_eq_none_iff]
    intro hall
    obtain ⟨t, ht, hf⟩ := hbad
    simp [hall t ht] at hf
  obtain ⟨msg, hmsg⟩ := Option.ne_none_iff_exists'.mp hv
  rcases ha with rfl | rfl <;>
    exact ⟨by simp [execute, hmsg], by simp [execute, hmsg]⟩

/-- Claim C1 witness: `create [valid, missing-content]` against a
non-empty store fails and leaves the store unchanged. -/
theorem claim_c1_witness :
    (execute ⟨some "create",
        some [⟨some "Run tests", some "pending", some "Running tests"⟩,
              ⟨none, some "pending", some "Doing work"⟩]⟩
      (some [⟨some "Old", some "completed", some "Olding"⟩])).1.success = false ∧
    (execute ⟨some "create",
        some [⟨some "Run tests", some "pending", some "Running tests"⟩,
              ⟨none, some "pending", some "Doing work"⟩]⟩
      (some [⟨some "Old", some "completed", some "Olding"⟩])).2 =
      some [⟨some "Old", some "completed", some "Olding"⟩] :=
  claim_c1 "create" (Or.inl rfl)
    [⟨some "Run tests", some "pending", some "Running tests"⟩,
     ⟨none, some "pending", some "Doing work"⟩]
    ⟨⟨none, some "pending", some "Doing work"⟩, by decide, by decide⟩
    (some [⟨some "Old", some "completed", some "Olding"⟩])

/-- Claim C2: every call returns a well-formed result envelope — either
success carrying an output payload and no error, or failure carrying an
error payload and no output; within the embedding the function is total,
so no exception reaches the caller. -/
theorem claim_c2 (input : Input) (st : Store) :
    ((execute input st).1.success = true ∧
      ((execute input st).1.output).isSome = true ∧
      (execute input st).1.error = none) ∨
    ((execute input st).1.success = false ∧
      (execute input st).1.output = none ∧
      ((execute input st).1.error).isSome = true) := by
  by_cases h1 : input.action = some "create"
  · cases hv : validateFrom 0 (input.todos.getD []) <;> simp [execute, h1, hv]
  · by_cases h2 : input.action = some "update"
    · cases hv : validateFrom 0 (input.todos.getD []) <;> simp [execute, h1, h2, hv]
    · by_cases h3 : input.action = some "list" <;> simp [execute, h1, h2, h3]

/-- Claim C3: for a sequence of items each carrying all three fields with
an allowed status, create succeeds, and a subsequent list returns success
with exactly that sequence in order and count equal to its length. -/
theorem claim_c3 (todos : List RawTodo)
    (h : ∀ t ∈ todos, validTodo t = true) (st : Store) :
    (execute ⟨some "create", some todos⟩ st).1.success = true ∧
    (execute ⟨some "list", none⟩ (execute ⟨some "create", some todos⟩ st).2).1 =
      ⟨true, some (.listed todos.length todos), none⟩ := by
  have hv : validateFrom 0 todos = none := (validateFrom_eq_none_iff 0 todos).mpr h
  constructor <;> simp [execute, hv]

/-- Claim C3 witness: create of a concrete two-item list followed by list
echoes that list with count 2. -/
theorem claim_c3_witness :
    (execute ⟨some "create",
        some [⟨some "Run tests", some "pending", some "Running tests"⟩,
              ⟨some "Build", some "completed", some "Building"⟩]⟩ mount).1.success = true ∧
    (execute ⟨some "list", none⟩
      (execute ⟨some "create",
          some [⟨some "Run tests", some "pending", some "Running tests"⟩,
                ⟨some "Build", some "completed", some "Building"⟩]⟩ mount).2).1 =
      ⟨true, some (.listed 2
        [⟨some "Run tests", some "pending", some "Running tests"⟩,
         ⟨some "Build", some "completed", some "Building"⟩]), none⟩ :=
  claim_c3 [⟨some "Run tests", some "pending", some "Running tests"⟩,
            ⟨some "Build", some "completed", some "Building"⟩] (by decide) mount

/-- Claim C4: a successful create or update replaces the store wholesale
with the submitted sequence, whatever the prior contents; the empty
sequence clears the list, and update never merges with prior state. -/
theorem claim_c4 (a : String) (ha : a = "create" ∨ a = "update")
    (todos : List RawTodo) (h : ∀ t ∈ todos, validTodo t = true) (st : Store) :
    (execute ⟨some a, some todos⟩ st).1.success = true ∧
    (execute ⟨some a, some todos⟩ st).2 = some todos := by
  have hv : validateFrom 0 todos = none := (validateFrom_eq_none_iff 0 todos).mpr h
  rcases ha with rfl | rfl <;> constructor <;> simp [execute, hv]

/-- Claim C4 witness: after `create [A, B]`, `update [C]` leaves exactly
`[C]` in the store. -/
theorem claim_c4_witness :
    (execute ⟨some "update", some [⟨some "C", some "pending", some "Cing"⟩]⟩
      (execute ⟨some "create",
          some [⟨some "A", some "pending", some "Aing"⟩,
                ⟨some "B", some "pending", some "Bing"⟩]⟩ mount).2).1.success = true ∧
    (execute ⟨some "update", some [⟨some "C", some "pending", some "Cing"⟩]⟩
      (execute ⟨some "create",
          some [⟨some "A", some "pending", some "Aing"⟩,
                ⟨some "B", some "pending", some "Bing"⟩]⟩ mount).2).2 =
      some [⟨some "C", some "pending", some "Cing"⟩] :=
  claim_c4 "update" (Or.inr rfl) [⟨some "C", some "pending", some "Cing"⟩]
    (by decide)
    (execute ⟨some "create",
        some [⟨some "A", some "pending", some "Aing"⟩,
              ⟨some "B", some "pending", some "Bing"⟩]⟩ mount).2

/-- Claim C5: a successful update returns success whose tallies are the
counts of submitted items with each status, and the three tallies sum to
the returned count, which is the length of the submitted sequence. -/
theorem claim_c5 (todos : List RawTodo)
    (h : ∀ t ∈ todos, validTodo t = true) (st : Store) :
    (execute ⟨some "update", some todos⟩ st).1 =
      ⟨true, some (.updated todos.length (countStatus "pending" todos)
        (countStatus "in_progress" todos) (countStatus "completed" todos)), none⟩ ∧
    countStatus "pending" todos + countStatus "in_progress" todos +
      countStatus "completed" todos = todos.length := by
  have hv : validateFrom 0 todos = none := (validateFrom_eq_none_iff 0 todos).mpr h
  exact ⟨by simp [execute, hv], countStatus_sum todos h⟩

/-- Claim C5 witness: updating with one pending and two completed items
reports count 3 and tallies 1, 0, 2. -/
theorem claim_c5_witness :
    (execute ⟨some "update",
        some [⟨some "A", some "pending", some "Aing"⟩,
              ⟨some "B", some "completed", some "Bing"⟩,
              ⟨some "C", some "completed", some "Cing"⟩]⟩ mount).1 =
      ⟨true, some (.updated 3 1 0 2), none⟩ ∧ 1 + 0 + 2 = 3 := by
  have h := claim_c5 [⟨some "A", some "pending", some "Aing"⟩,
    ⟨some "B", some "completed", some "Bing"⟩,
    ⟨some "C", some "completed", some "Cing"⟩] (by decide) mount
  simpa [countStatus, statusVal] using h

/-- Claim C6: the list action always returns success with the current
store contents and their count; on the freshly mounted store, and on a
store that was never initialized, it reports count 0 and no items. -/
theorem claim_c6 (st : Store) (t : Option (List RawTodo)) :
    (execute ⟨some "list", t⟩ st).1 =
      ⟨true, some (.listed (st.getD []).length (st.getD [])), none⟩ ∧
    (execute ⟨some "list", t⟩ mount).1 = ⟨true, some (.listed 0 []), none⟩ ∧
    (execute ⟨some "list", t⟩ none).1 = ⟨true, some (.listed 0 []), none⟩ := by
  refine ⟨?_, ?_, ?_⟩ <;> simp [execute, mount]

/-- Claim C7 counterexample: the claim says the failure message identifies
which required field is missing, but two single-item payloads — one missing
only `content`, the other missing only `activeForm` — produce identical
failure results, so the message cannot identify the missing field. -/
theorem claim_c7_counterexample :
    (⟨none, some "pending", some "Running tests"⟩ : RawTodo).content = none ∧
    ((⟨none, some "pending", some "Running tests"⟩ : RawTodo).activeForm).isSome = true ∧
    ((⟨some "Run tests", some "pending", none⟩ : RawTodo).content).isSome = true ∧
    (⟨some "Run tests", some "pending", none⟩ : RawTodo).activeForm = none ∧
    (execute ⟨some "create", some [⟨none, some "pending", some "Running tests"⟩]⟩ none).1 =
      (execute ⟨some "create", some [⟨some "Run tests", some "pending", none⟩]⟩ none).1 := by
  decide

/-- Claim C7 (amended): the failure message of a create or update call with
an invalid item names the 0-based index of the first offending item and the
reason kind: the fixed missing-required-fields text (listing all three field
names without singling out the absent one) when a field is missing, or the
offending status value for an invalid-status failure. -/
theorem claim_c7 (a : String) (ha : a = "create" ∨ a = "update")
    (pre : List RawTodo) (hpre : ∀ t ∈ pre, validTodo t = true)
    (bad : RawTodo) (hbad : validTodo bad = false) (suf : List RawTodo)
    (st : Store) :
    (execute ⟨some a, some (pre ++ bad :: suf)⟩ st).1.success = false ∧
    (execute ⟨some a, some (pre ++ bad :: suf)⟩ st).1.error =
      some ⟨if hasFields bad then invalidMsg pre.length (statusVal bad)
            else missingMsg pre.length⟩ := by
  have hv := validateFrom_first_bad pre hpre bad hbad suf 0
  rw [Nat.zero_add] at hv
  rcases ha with rfl | rfl <;>
    exact ⟨by simp [execute, hv], by simp [execute, hv]⟩

/-- Claim C7 witness: with one valid item followed by an item whose status
is `bogus`, update fails with the message naming index 1 and the value. -/
theorem claim_c7_witness :
    (execute ⟨some "update",
        some [⟨some "A", some "pending", some "Aing"⟩,
              ⟨some "X", some "bogus", some "Xing"⟩]⟩ mount).1.success = false ∧
    (execute ⟨some "update",
        some [⟨some "A", some "pending", some "Aing"⟩,
              ⟨some "X", some "bogus", some "Xing"⟩]⟩ mount).1.error =
      some ⟨"Todo 1 has invalid status: bogus"⟩ := by
  have h := claim_c7 "update" (Or.inr rfl)
    [⟨some "A", some "pending", some "Aing"⟩] (by decide)
    ⟨some "X", some "bogus", some "Xing"⟩ (by decide) [] mount
  exact ⟨h.1, h.2.trans (by decide)⟩

/-- Claim C8: any action value outside create/update/list yields a failure
whose message names the offending value and lists the three valid actions. -/
theorem claim_c8 (a : Option String) (t : Option (List RawTodo)) (st : Store)
    (h1 : a ≠ some "create") (h2 : a ≠ some "update") (h3 : a ≠ some "list") :
    (execute ⟨a, t⟩ st).1 =
      ⟨false, none, some ⟨"Unknown action: " ++ optionStr a ++
        ". Valid actions: create, update, list"⟩⟩ := by
  simp [execute, h1, h2, h3, unknownMsg]

/-- Claim C8 witness: the action `delete` fails with the message naming it
and enumerating create, update, list. -/
theorem claim_c8_witness :
    (execute ⟨some "delete", none⟩ mount).1 =
      ⟨false, none,
        some ⟨"Unknown action: delete. Valid actions: create, update, list"⟩⟩ := by
  have h := claim_c8 (some "delete") none mount (by decide) (by decide) (by decide)
  exact h.trans (by decide)

/-- Claim C9: list and unrecognized actions leave the store contents
unchanged, and the result of such a call does not depend on whatever todos
field the input carries. -/
theorem claim_c9 (a : Option String) (t t' : Option (List RawTodo)) (st : Store)
    (h1 : a ≠ some "create") (h2 : a ≠ some "update") :
    (execute ⟨a, t⟩ st).2 = st ∧ execute ⟨a, t⟩ st = execute ⟨a, t'⟩ st := by
  by_cases h3 : a = some "list" <;> simp [execute, h1, h2, h3]

/-- Claim C9 witness: a list call carrying a todos payload leaves the
mounted store unchanged and returns the same result as one without it. -/
theorem claim_c9_witness :
    (execute ⟨some "list", some [⟨some "Z", some "pending", some "Zing"⟩]⟩ mount).2 =
      mount ∧
    execute ⟨some "list", some [⟨some "Z", some "pending", some "Zing"⟩]⟩ mount =
      execute ⟨some "list", none⟩ mount :=
  claim_c9 (some "list") (some [⟨some "Z", some "pending", some "Zing"⟩]) none mount
    (by decide) (by decide)

/-- Claim C10: a create or update call whose input record has no todos
field behaves as an empty submission: it succeeds with count 0 and clears
the store, although the schema description marks todos as required. -/
theorem claim_c10 (a : String) (ha : a = "create" ∨ a = "update") (st : Store) :
    (execute ⟨some a, none⟩ st).2 = some [] ∧
    (execute ⟨some a, none⟩ st).1 =
      (if a = "create" then ⟨true, some (.created 0 []), none⟩
       else ⟨true, some (.updated 0 0 0 0), none⟩) := by
  rcases ha with rfl | rfl <;>
    exact ⟨by simp [execute, validateFrom], by simp [execute, validateFrom, countStatus]⟩

/-- Claim C10 witness: create with no todos field on a one-item store
succeeds with count 0 and clears the store. -/
theorem claim_c10_witness :
    (execute ⟨some "create", none⟩
      (some [⟨some "A", some "pending", some "Aing"⟩])).2 = some [] ∧
    (execute ⟨some "create", none⟩
      (some [⟨some "A", some "pending", some "Aing"⟩])).1 =
      ⟨true, some (.created 0 []), none⟩ := by
  have h := claim_c10 "create" (Or.inl rfl)
    (some [⟨some "A", some "pending", some "Aing"⟩])
  exact ⟨h.1, h.2.trans (by decide)⟩

end TodoToolSpec
